import Mathlib

/-!
Shallow embedding of the NESmulator core (6502 CPU interpreter, memory bus,
PPU register bank) and verification of the spec claims against it.

Conventions of the embedding:
* Machine integers (`u8`, `u16`) are `Nat` with explicit `% 256` / `% 65536`
  at every operation where the Rust code wraps.
* Byte arrays (`[u8; N]`, `Vec<u8>`) are functions `Nat → Nat` paired with an
  explicit length; `idx` performs the bounds-checked indexing of Rust, where
  an out-of-bounds access is a panic, modelled as `none`.
* Fallible operations (anything that can reach a `panic!`, `todo!`,
  `unimplemented!` or an out-of-bounds index) return `Option`; `none` means
  the Rust program terminates abnormally at that point.
-/

namespace NESm

set_option maxRecDepth 8000

/-- Pointwise update of a byte store. -/
def upd (f : Nat → Nat) (i v : Nat) : Nat → Nat := fun j => if j = i then v else f j

/-- Bounds-checked indexing: Rust slice/array indexing panics when the index
is not below the length, modelled as `none`. -/
def idx (len : Nat) (f : Nat → Nat) (i : Nat) : Option Nat :=
  if i < len then some (f i) else none

/-- Modelled from the spec: the cartridge-loading collaborator provides "a
mirroring-mode tag (two named variants)"; the defining file (rom.rs) is not
among the sources, but the two variant names appear in the PPU's
`mirror_vram_addr` match arms. -/
inductive Mirroring
  | Vertical
  | Horizontal
deriving DecidableEq

/-! ### PPU register bank (src/ppu/reg) -/

/-- src/ppu/reg/address.rs: `AddressRegister { value: u16 }`. -/
structure AddressRegister where
  value : Nat

def AddressRegister.new : AddressRegister := ⟨0⟩

def AddressRegister.get_addr (r : AddressRegister) : Nat := r.value

/-- src/ppu/reg/address.rs `update`: the two-step latch write.  The source
ORs a four-bit mask into the current value and then adds the incoming byte
(shifted for the high-byte step). -/
def AddressRegister.update (r : AddressRegister) (value : Nat) (latch : Bool) :
    AddressRegister :=
  if latch then
    ⟨((r.value ||| 0xF0) + value) % 65536⟩
  else
    ⟨((r.value ||| 0x0F) + (value <<< 8)) % 65536⟩

/-- src/ppu/reg/address.rs `increment`: wrapping add, then mirror down past
0x3FFF. -/
def AddressRegister.increment (r : AddressRegister) (inc : Nat) : AddressRegister :=
  let v := (r.value + inc) % 65536
  if 0x3FFF < v then ⟨v &&& 0x7FFF⟩ else ⟨v⟩

/-- src/ppu/reg/scroll.rs. -/
structure ScrollRegister where
  x : Nat
  y : Nat

def ScrollRegister.new : ScrollRegister := ⟨0, 0⟩

def ScrollRegister.update (r : ScrollRegister) (value : Nat) (latch : Bool) :
    ScrollRegister :=
  if latch then { r with y := value } else { r with x := value }

/-- Modelled from the spec: the control register (write-only, "configures
auto-increment step") lives in src/ppu/reg/control.rs, which is not among the
sources.  It is an 8-bit value written wholesale. -/
structure ControlRegister where
  bits : Nat

def ControlRegister.new : ControlRegister := ⟨0⟩

def ControlRegister.update (r : ControlRegister) (value : Nat) : ControlRegister :=
  { r with bits := value }

/-- Modelled from the spec: "an auto-increment step derived from the control
register" (§3); the hardware's two step sizes are 1 and 32, selected by
control bit 2. -/
def ControlRegister.vram_addr_increment (r : ControlRegister) : Nat :=
  if r.bits &&& 0x04 ≠ 0 then 32 else 1

/-! ### PPU (src/ppu/mod.rs) -/

/-- src/ppu/mod.rs `Ppu`.  `chr_rom: Vec<u8>` becomes a length plus a byte
function; `vram: [u8; 2048]` and `oam_data: [u8; 256]` are byte functions with
the fixed lengths enforced at each indexing site. -/
structure Ppu where
  address_latch : Bool
  reg_address : AddressRegister
  reg_control : ControlRegister
  reg_mask : Nat
  reg_scroll : ScrollRegister
  status : Nat
  chr_len : Nat
  chr_rom : Nat → Nat
  vram : Nat → Nat
  oam_address : Nat
  oam_data : Nat → Nat
  data_buffer : Nat
  mirroring : Mirroring

/-- src/ppu/mod.rs `Ppu::new`: status starts as 0b1010_0000. -/
def Ppu.new (chr_len : Nat) (chr_rom : Nat → Nat) (mirroring : Mirroring) : Ppu where
  address_latch := false
  reg_address := AddressRegister.new
  reg_control := ControlRegister.new
  reg_mask := 0
  reg_scroll := ScrollRegister.new
  status := 0xA0
  chr_len := chr_len
  chr_rom := chr_rom
  vram := fun _ => 0
  oam_address := 0
  oam_data := fun _ => 0
  data_buffer := 0
  mirroring := mirroring

/-- src/ppu/mod.rs `write_to_address`: feeds the current latch to the address
register and then sets the latch flag to `true` unconditionally. -/
def Ppu.write_to_address (p : Ppu) (value : Nat) : Ppu :=
  { p with reg_address := p.reg_address.update value p.address_latch
           address_latch := true }

def Ppu.write_to_control (p : Ppu) (value : Nat) : Ppu :=
  { p with reg_control := p.reg_control.update value }

def Ppu.write_to_mask (p : Ppu) (value : Nat) : Ppu :=
  { p with reg_mask := value }

def Ppu.write_to_scroll (p : Ppu) (value : Nat) : Ppu :=
  { p with reg_scroll := p.reg_scroll.update value p.address_latch
           address_latch := true }

def Ppu.write_to_oam_addr (p : Ppu) (value : Nat) : Ppu :=
  { p with oam_address := value % 256 }

def Ppu.write_to_oam_data (p : Ppu) (value : Nat) : Ppu :=
  { p with oam_data := upd p.oam_data (p.oam_address % 256) value
           oam_address := (p.oam_address + 1) % 256 }

/-- src/ppu/mod.rs `read_from_oam_data`: indexes `oam_data` (256 entries)
directly with the full bus address it receives. -/
def Ppu.read_from_oam_data (p : Ppu) (addr : Nat) : Option Nat :=
  idx 256 p.oam_data addr

/-- src/ppu/mod.rs `get_status`: returns the status bits and clears the
shared address/scroll latch. -/
def Ppu.get_status (p : Ppu) : Nat × Ppu :=
  (p.status, { p with address_latch := false })

def Ppu.increment_vram_addr (p : Ppu) : Ppu :=
  { p with reg_address := p.reg_address.increment p.reg_control.vram_addr_increment }

/-- src/ppu/mod.rs `mirror_vram_addr`. -/
def Ppu.mirror_vram_addr (p : Ppu) (addr : Nat) : Nat :=
  let mirrored_vram := addr &&& 0xBFFF
  let vram_index := mirrored_vram - 0x2000
  let name_table := vram_index / 0x0400
  match p.mirroring, name_table with
  | Mirroring.Vertical, 2 => vram_index - 0x0800
  | Mirroring.Vertical, 3 => vram_index - 0x0800
  | Mirroring.Horizontal, 1 => vram_index - 0x0400
  | Mirroring.Horizontal, 2 => vram_index - 0x0400
  | Mirroring.Horizontal, 3 => vram_index - 0x0800
  | _, _ => vram_index

/-- src/ppu/mod.rs `read` (the 0x2007 data port): captures the address,
auto-increments, then dispatches on the captured address.  The register range
hits a `todo!` and the palette arm indexes the 2048-byte `vram` at an index of
at least 0x3F00. -/
def Ppu.read (p : Ppu) : Option (Nat × Ppu) :=
  let addr := p.reg_address.get_addr
  let p := p.increment_vram_addr
  if addr ≤ 0x1FFF then do
    let fetched ← idx p.chr_len p.chr_rom addr
    some (p.data_buffer, { p with data_buffer := fetched })
  else if addr ≤ 0x2007 then
    none
  else if addr ≤ 0x2FFF then do
    let fetched ← idx 2048 p.vram (p.mirror_vram_addr addr)
    some (p.data_buffer, { p with data_buffer := fetched })
  else if addr ≤ 0x3EFF then do
    let fetched ← idx 2048 p.vram (p.mirror_vram_addr (addr - 0x1000))
    some (p.data_buffer, { p with data_buffer := fetched })
  else if addr ≤ 0x3FFF then do
    let fetched ← idx 2048 p.vram (p.mirror_vram_addr (addr - 0x1000))
    let ret ← idx 2048 p.vram ((addr - 0x3F00) % 0x0020 + 0x3F00)
    some (ret, { p with data_buffer := fetched })
  else
    none

/-- src/ppu/mod.rs `write` (the 0x2007 data port): CHR-ROM and register
ranges hit `todo!`; the palette arm indexes `vram` out of bounds exactly like
`read`; the increment happens after the store. -/
def Ppu.write (p : Ppu) (value : Nat) : Option Ppu := do
  let addr := p.reg_address.get_addr
  let p' ←
    if addr ≤ 0x1FFF then
      none
    else if addr ≤ 0x2007 then
      none
    else if addr ≤ 0x2FFF then
      if p.mirror_vram_addr addr < 2048 then
        some { p with vram := upd p.vram (p.mirror_vram_addr addr) value }
      else none
    else if addr ≤ 0x3EFF then
      if p.mirror_vram_addr (addr - 0x1000) < 2048 then
        some { p with vram := upd p.vram (p.mirror_vram_addr (addr - 0x1000)) value }
      else none
    else if addr ≤ 0x3FFF then
      if (addr - 0x3F00) % 0x0020 + 0x3F00 < 2048 then
        some { p with vram := upd p.vram ((addr - 0x3F00) % 0x0020 + 0x3F00) value }
      else none
    else
      none
  some p'.increment_vram_addr

/-! ### Memory bus (src/bus.rs) -/

/-- src/bus.rs `Bus`.  `cpu_wram: [u8; 2048]` and `prg_rom: Vec<u8>` become
byte functions (with `prg_len` carrying the vector length). -/
structure Bus where
  cpu_wram : Nat → Nat
  open_bus : Nat
  ppu_open_bus : Nat
  prg_len : Nat
  prg_rom : Nat → Nat
  ppu : Ppu

/-- src/bus.rs `Bus::new`: zeroed WRAM and open-bus bytes, program and
graphics storage taken from the loaded cartridge image. -/
def Bus.new (prg_len : Nat) (prg_rom : Nat → Nat) (chr_len : Nat)
    (chr_rom : Nat → Nat) (mirroring : Mirroring) : Bus where
  cpu_wram := fun _ => 0
  open_bus := 0
  ppu_open_bus := 0
  prg_len := prg_len
  prg_rom := prg_rom
  ppu := Ppu.new chr_len chr_rom mirroring

/-- src/bus.rs `read_prg_rom`: subtract the 0x8000 base, wrap modulo 0x4000
when the image is exactly 16 KiB, then index the image (a panic if the index
is not below the image length). -/
def Bus.read_prg_rom (b : Bus) (addr : Nat) : Option Nat :=
  let a := addr - 0x8000
  let a := if b.prg_len = 0x4000 ∧ 0x4000 ≤ a then a % 0x4000 else a
  idx b.prg_len b.prg_rom a

/-- src/bus.rs `mem_read`.  The joypad arm (0x4016–0x4017) is a `todo!`; the
final wildcard arm returns the stale `open_bus` byte unchanged.  The PPU
register mirror arm recurses on the masked-down address. -/
def Bus.mem_read (b : Bus) (addr : Nat) : Option (Nat × Bus) :=
  if addr ≤ 0x1FFF then
    let mirrored_down_addr := addr &&& 0x07FF
    let value := b.cpu_wram mirrored_down_addr
    some (value, { b with open_bus := value })
  else if addr = 0x2000 ∨ addr = 0x2001 ∨ addr = 0x2003 ∨ addr = 0x2005 ∨
      addr = 0x2006 then
    some (b.ppu_open_bus, { b with open_bus := b.ppu_open_bus })
  else if addr = 0x2002 then
    let s := b.ppu.get_status
    some (s.1, { b with ppu := s.2
                        ppu_open_bus := (b.ppu_open_bus &&& 0x1F) ||| s.1
                        open_bus := s.1 })
  else if addr = 0x2004 then
    match b.ppu.read_from_oam_data addr with
    | some value => some (value, { b with ppu_open_bus := value, open_bus := value })
    | none => none
  else if addr = 0x2007 then
    match b.ppu.read with
    | some (value, p) =>
        some (value, { b with ppu := p, ppu_open_bus := value, open_bus := value })
    | none => none
  else if 0x2008 ≤ addr ∧ addr ≤ 0x3FFF then
    b.mem_read (addr &&& 0x2007)
  else if addr = 0x4016 ∨ addr = 0x4017 then
    none
  else if 0x8000 ≤ addr ∧ addr ≤ 0xFFFF then
    match b.read_prg_rom addr with
    | some value => some (value, { b with open_bus := value })
    | none => none
  else
    some (b.open_bus, b)
termination_by addr
decreasing_by
  have h1 : addr &&& 0x2007 ≤ 0x2007 := Nat.and_le_right
  omega

/-- src/bus.rs `mem_write`.  Address 0x2003 has no arm and falls into the
final wildcard, a panic; the OAM DMA arm (0x4014) slices `cpu_wram` with an
upper bound computed as `(value as usize) << (8 + 256)` (operator precedence
in the source), a shift past the integer width and hence a panic on every
execution; writes to the cartridge range and to any unmatched address
panic. -/
def Bus.mem_write (b : Bus) (addr value : Nat) : Option Bus :=
  if addr ≤ 0x1FFF then
    some { b with cpu_wram := upd b.cpu_wram (addr &&& 0x07FF) value }
  else if addr = 0x2000 then
    some { b with ppu_open_bus := value, ppu := b.ppu.write_to_control value }
  else if addr = 0x2001 then
    some { b with ppu_open_bus := value, ppu := b.ppu.write_to_mask value }
  else if addr = 0x2002 then
    some { b with ppu_open_bus := value }
  else if addr = 0x2004 then
    some { b with ppu_open_bus := value, ppu := b.ppu.write_to_oam_data value }
  else if addr = 0x2005 then
    some { b with ppu_open_bus := value, ppu := b.ppu.write_to_scroll value }
  else if addr = 0x2006 then
    some { b with ppu_open_bus := value, ppu := b.ppu.write_to_address value }
  else if addr = 0x2007 then
    match b.ppu.write value with
    | some p => some { b with ppu_open_bus := value, ppu := p }
    | none => none
  else if 0x2008 ≤ addr ∧ addr ≤ 0x3FFF then
    b.mem_write (addr &&& 0x2007) value
  else if addr = 0x4014 then
    none
  else if 0x8000 ≤ addr ∧ addr ≤ 0xFFFF then
    none
  else
    none
termination_by addr
decreasing_by
  have h1 : addr &&& 0x2007 ≤ 0x2007 := Nat.and_le_right
  omega

/-- src/bus.rs `mem_read_u16`: low byte first, then high byte at the next
address (16-bit address arithmetic wraps). -/
def Bus.mem_read_u16 (b : Bus) (addr : Nat) : Option (Nat × Bus) := do
  let (lo, b) ← b.mem_read addr
  let (hi, b) ← b.mem_read ((addr + 1) % 65536)
  some (lo + (hi <<< 8), b)

/-- src/bus.rs `mem_write_u16`: low byte first. -/
def Bus.mem_write_u16 (b : Bus) (addr value : Nat) : Option Bus := do
  let b ← b.mem_write addr (value &&& 0xFF)
  b.mem_write ((addr + 1) % 65536) (value >>> 8)

/-! ### Stack pointer (src/cpu/stackptr.rs) -/

/-- src/cpu/stackptr.rs: stack page base 0x0100, power-up offset 0xFD. -/
def STACK : Nat := 0x0100

def STACK_RESET : Nat := 0xFD

/-- src/cpu/stackptr.rs `StackPtr { addr: u8 }`. -/
structure StackPtr where
  addr : Nat

def StackPtr.new : StackPtr := ⟨STACK_RESET⟩

def StackPtr.from_addr (addr : Nat) : StackPtr := ⟨addr % 256⟩

def StackPtr.reset (_ : StackPtr) : StackPtr := ⟨STACK_RESET⟩

/-- `StackPtr::addr`: the absolute stack address `STACK + offset`. -/
def StackPtr.abs_addr (s : StackPtr) : Nat := STACK + s.addr

def StackPtr.rel_addr (s : StackPtr) : Nat := s.addr

def StackPtr.set (_ : StackPtr) (new_addr : Nat) : StackPtr := ⟨new_addr % 256⟩

/-- `StackPtr::inc`: the stack grows down, so this is a wrapping decrement of
the 8-bit offset. -/
def StackPtr.inc (s : StackPtr) : StackPtr := ⟨(s.addr + 255) % 256⟩

/-- `StackPtr::dec`: wrapping increment of the 8-bit offset. -/
def StackPtr.dec (s : StackPtr) : StackPtr := ⟨(s.addr + 1) % 256⟩

/-! ### CPU flags (src/cpu/cpu.rs `CpuFlag`) -/

namespace CpuFlag

def CARRY : Nat := 0x01
def ZERO : Nat := 0x02
def INTERRUPT_DISABLE : Nat := 0x04
def DECIMAL_MODE : Nat := 0x08
def BREAK : Nat := 0x10
def BREAK2 : Nat := 0x20
def OVERFLOW : Nat := 0x40
def NEGATIVE : Nat := 0x80

end CpuFlag

/-- bitflags `insert`. -/
def flag_insert (s f : Nat) : Nat := s ||| f

/-- bitflags `remove`: `bits &= !f` on `u8`. -/
def flag_remove (s f : Nat) : Nat := s &&& (0xFF ^^^ f)

/-- bitflags `contains`. -/
def flag_contains (s f : Nat) : Bool := s &&& f == f

/-- bitflags `set(flag, bool)`. -/
def flag_assign (s f : Nat) (b : Bool) : Nat :=
  if b then flag_insert s f else flag_remove s f

/-- `u8::wrapping_sub` on byte values kept as `Nat`. -/
def wrapping_sub8 (a b : Nat) : Nat := (a + 256 - b % 256) % 256

/-- sign extension of a byte read as `i8` and cast back to `u16`
(`jump as i8` followed by `jump as u16` in `CPU::branch`). -/
def sign_extend8 (j : Nat) : Nat := if j < 0x80 then j else 0xFF00 + j

/-! ### Addressing modes and opcode metadata -/

/-- src/cpu/cpu.rs `AddressingMode`. -/
inductive AddressingMode
  | Immediate
  | ZeroPage
  | ZeroPage_X
  | ZeroPage_Y
  | Absolute
  | Absolute_X
  | Absolute_Y
  | Indirect_X
  | Indirect_Y
  | NoneAddressing
deriving DecidableEq

/-- An entry of the static opcode metadata table: byte length and addressing
mode (the mnemonic and cycle count play no role in the dispatch). -/
structure OpCode where
  bytes : Nat
  addressing_mode : AddressingMode

/-- Modelled from the spec: the static opcode table consulted by the
interpreter loop ("mapping each opcode byte to a mnemonic, byte length, cycle
count, and addressing mode", §2) lives in src/cpu/opcode.rs, which is not
among the sources.  The entries below cover exactly the opcodes named by the
dispatch in src/cpu/cpu.rs, with the documented 6502 byte lengths and modes
(the sibling table in src/opcode.rs shows the same format and agrees on the
opcodes it lists).  Branches are two bytes, matching §4.5's rule that a
not-taken branch skips its displacement byte via the generic
`byte-length − 1` adjustment. -/
def OPCODES_MAP (code : Nat) : Option OpCode :=
  if code = 0x00 then some ⟨1, .NoneAddressing⟩
  else if code = 0xEA then some ⟨1, .NoneAddressing⟩
  else if code = 0x24 then some ⟨2, .ZeroPage⟩
  else if code = 0x2C then some ⟨3, .Absolute⟩
  else if code = 0xAA then some ⟨1, .NoneAddressing⟩
  else if code = 0xA8 then some ⟨1, .NoneAddressing⟩
  else if code = 0xBA then some ⟨1, .NoneAddressing⟩
  else if code = 0x8A then some ⟨1, .NoneAddressing⟩
  else if code = 0x9A then some ⟨1, .NoneAddressing⟩
  else if code = 0x98 then some ⟨1, .NoneAddressing⟩
  else if code = 0x18 then some ⟨1, .NoneAddressing⟩
  else if code = 0xD8 then some ⟨1, .NoneAddressing⟩
  else if code = 0x58 then some ⟨1, .NoneAddressing⟩
  else if code = 0xB8 then some ⟨1, .NoneAddressing⟩
  else if code = 0x38 then some ⟨1, .NoneAddressing⟩
  else if code = 0xF8 then some ⟨1, .NoneAddressing⟩
  else if code = 0x78 then some ⟨1, .NoneAddressing⟩
  else if code = 0xA9 then some ⟨2, .Immediate⟩
  else if code = 0xA5 then some ⟨2, .ZeroPage⟩
  else if code = 0xB5 then some ⟨2, .ZeroPage_X⟩
  else if code = 0xAD then some ⟨3, .Absolute⟩
  else if code = 0xBD then some ⟨3, .Absolute_X⟩
  else if code = 0xB9 then some ⟨3, .Absolute_Y⟩
  else if code = 0xA1 then some ⟨2, .Indirect_X⟩
  else if code = 0xB1 then some ⟨2, .Indirect_Y⟩
  else if code = 0xA2 then some ⟨2, .Immediate⟩
  else if code = 0xA6 then some ⟨2, .ZeroPage⟩
  else if code = 0xB6 then some ⟨2, .ZeroPage_Y⟩
  else if code = 0xAE then some ⟨3, .Absolute⟩
  else if code = 0xBE then some ⟨3, .Absolute_Y⟩
  else if code = 0xA0 then some ⟨2, .Immediate⟩
  else if code = 0xA4 then some ⟨2, .ZeroPage⟩
  else if code = 0xB4 then some ⟨2, .ZeroPage_X⟩
  else if code = 0xAC then some ⟨3, .Absolute⟩
  else if code = 0xBC then some ⟨3, .Absolute_X⟩
  else if code = 0x85 then some ⟨2, .ZeroPage⟩
  else if code = 0x95 then some ⟨2, .ZeroPage_X⟩
  else if code = 0x8D then some ⟨3, .Absolute⟩
  else if code = 0x9D then some ⟨3, .Absolute_X⟩
  else if code = 0x99 then some ⟨3, .Absolute_Y⟩
  else if code = 0x81 then some ⟨2, .Indirect_X⟩
  else if code = 0x91 then some ⟨2, .Indirect_Y⟩
  else if code = 0x86 then some ⟨2, .ZeroPage⟩
  else if code = 0x96 then some ⟨2, .ZeroPage_Y⟩
  else if code = 0x8E then some ⟨3, .Absolute⟩
  else if code = 0x84 then some ⟨2, .ZeroPage⟩
  else if code = 0x94 then some ⟨2, .ZeroPage_X⟩
  else if code = 0x8C then some ⟨3, .Absolute⟩
  else if code = 0x0A then some ⟨1, .NoneAddressing⟩
  else if code = 0x06 then some ⟨2, .ZeroPage⟩
  else if code = 0x16 then some ⟨2, .ZeroPage_X⟩
  else if code = 0x0E then some ⟨3, .Absolute⟩
  else if code = 0x1E then some ⟨3, .Absolute_X⟩
  else if code = 0x4A then some ⟨1, .NoneAddressing⟩
  else if code = 0x46 then some ⟨2, .ZeroPage⟩
  else if code = 0x56 then some ⟨2, .ZeroPage_X⟩
  else if code = 0x4E then some ⟨3, .Absolute⟩
  else if code = 0x5E then some ⟨3, .Absolute_X⟩
  else if code = 0x2A then some ⟨1, .NoneAddressing⟩
  else if code = 0x26 then some ⟨2, .ZeroPage⟩
  else if code = 0x36 then some ⟨2, .ZeroPage_X⟩
  else if code = 0x2E then some ⟨3, .Absolute⟩
  else if code = 0x3E then some ⟨3, .Absolute_X⟩
  else if code = 0x6A then some ⟨1, .NoneAddressing⟩
  else if code = 0x66 then some ⟨2, .ZeroPage⟩
  else if code = 0x76 then some ⟨2, .ZeroPage_X⟩
  else if code = 0x6E then some ⟨3, .Absolute⟩
  else if code = 0x7E then some ⟨3, .Absolute_X⟩
  else if code = 0x48 then some ⟨1, .NoneAddressing⟩
  else if code = 0x68 then some ⟨1, .NoneAddressing⟩
  else if code = 0x08 then some ⟨1, .NoneAddressing⟩
  else if code = 0x28 then some ⟨1, .NoneAddressing⟩
  else if code = 0x29 then some ⟨2, .Immediate⟩
  else if code = 0x25 then some ⟨2, .ZeroPage⟩
  else if code = 0x35 then some ⟨2, .ZeroPage_X⟩
  else if code = 0x2D then some ⟨3, .Absolute⟩
  else if code = 0x3D then some ⟨3, .Absolute_X⟩
  else if code = 0x39 then some ⟨3, .Absolute_Y⟩
  else if code = 0x21 then some ⟨2, .Indirect_X⟩
  else if code = 0x31 then some ⟨2, .Indirect_Y⟩
  else if code = 0x09 then some ⟨2, .Immediate⟩
  else if code = 0x05 then some ⟨2, .ZeroPage⟩
  else if code = 0x15 then some ⟨2, .ZeroPage_X⟩
  else if code = 0x0D then some ⟨3, .Absolute⟩
  else if code = 0x1D then some ⟨3, .Absolute_X⟩
  else if code = 0x19 then some ⟨3, .Absolute_Y⟩
  else if code = 0x01 then some ⟨2, .Indirect_X⟩
  else if code = 0x11 then some ⟨2, .Indirect_Y⟩
  else if code = 0x49 then some ⟨2, .Immediate⟩
  else if code = 0x45 then some ⟨2, .ZeroPage⟩
  else if code = 0x55 then some ⟨2, .ZeroPage_X⟩
  else if code = 0x4D then some ⟨3, .Absolute⟩
  else if code = 0x5D then some ⟨3, .Absolute_X⟩
  else if code = 0x59 then some ⟨3, .Absolute_Y⟩
  else if code = 0x41 then some ⟨2, .Indirect_X⟩
  else if code = 0x51 then some ⟨2, .Indirect_Y⟩
  else if code = 0x10 then some ⟨2, .NoneAddressing⟩
  else if code = 0x30 then some ⟨2, .NoneAddressing⟩
  else if code = 0x50 then some ⟨2, .NoneAddressing⟩
  else if code = 0x70 then some ⟨2, .NoneAddressing⟩
  else if code = 0x90 then some ⟨2, .NoneAddressing⟩
  else if code = 0xB0 then some ⟨2, .NoneAddressing⟩
  else if code = 0xD0 then some ⟨2, .NoneAddressing⟩
  else if code = 0xF0 then some ⟨2, .NoneAddressing⟩
  else if code = 0xC9 then some ⟨2, .Immediate⟩
  else if code = 0xC5 then some ⟨2, .ZeroPage⟩
  else if code = 0xD5 then some ⟨2, .ZeroPage_X⟩
  else if code = 0xCD then some ⟨3, .Absolute⟩
  else if code = 0xDD then some ⟨3, .Absolute_X⟩
  else if code = 0xD9 then some ⟨3, .Absolute_Y⟩
  else if code = 0xC1 then some ⟨2, .Indirect_X⟩
  else if code = 0xD1 then some ⟨2, .Indirect_Y⟩
  else if code = 0xE0 then some ⟨2, .Immediate⟩
  else if code = 0xE4 then some ⟨2, .ZeroPage⟩
  else if code = 0xEC then some ⟨3, .Absolute⟩
  else if code = 0xC0 then some ⟨2, .Immediate⟩
  else if code = 0xC4 then some ⟨2, .ZeroPage⟩
  else if code = 0xCC then some ⟨3, .Absolute⟩
  else if code = 0xE6 then some ⟨2, .ZeroPage⟩
  else if code = 0xF6 then some ⟨2, .ZeroPage_X⟩
  else if code = 0xEE then some ⟨3, .Absolute⟩
  else if code = 0xFE then some ⟨3, .Absolute_X⟩
  else if code = 0xE8 then some ⟨1, .NoneAddressing⟩
  else if code = 0xC8 then some ⟨1, .NoneAddressing⟩
  else if code = 0xC6 then some ⟨2, .ZeroPage⟩
  else if code = 0xD6 then some ⟨2, .ZeroPage_X⟩
  else if code = 0xCE then some ⟨3, .Absolute⟩
  else if code = 0xDE then some ⟨3, .Absolute_X⟩
  else if code = 0xCA then some ⟨1, .NoneAddressing⟩
  else if code = 0x88 then some ⟨1, .NoneAddressing⟩
  else if code = 0x4C then some ⟨3, .Absolute⟩
  else if code = 0x6C then some ⟨3, .NoneAddressing⟩
  else if code = 0x20 then some ⟨3, .NoneAddressing⟩
  else if code = 0x40 then some ⟨1, .NoneAddressing⟩
  else if code = 0x60 then some ⟨1, .NoneAddressing⟩
  else if code = 0x69 then some ⟨2, .Immediate⟩
  else if code = 0x65 then some ⟨2, .ZeroPage⟩
  else if code = 0x75 then some ⟨2, .ZeroPage_X⟩
  else if code = 0x6D then some ⟨3, .Absolute⟩
  else if code = 0x7D then some ⟨3, .Absolute_X⟩
  else if code = 0x79 then some ⟨3, .Absolute_Y⟩
  else if code = 0x61 then some ⟨2, .Indirect_X⟩
  else if code = 0x71 then some ⟨2, .Indirect_Y⟩
  else if code = 0xE9 then some ⟨2, .Immediate⟩
  else if code = 0xE5 then some ⟨2, .ZeroPage⟩
  else if code = 0xF5 then some ⟨2, .ZeroPage_X⟩
  else if code = 0xED then some ⟨3, .Absolute⟩
  else if code = 0xFD then some ⟨3, .Absolute_X⟩
  else if code = 0xF9 then some ⟨3, .Absolute_Y⟩
  else if code = 0xE1 then some ⟨2, .Indirect_X⟩
  else if code = 0xF1 then some ⟨2, .Indirect_Y⟩
  else none

/-! ### CPU core (src/cpu/cpu.rs) -/

/-- src/cpu/cpu.rs `CPU`. -/
structure CPU where
  register_a : Nat
  register_x : Nat
  register_y : Nat
  stackptr : StackPtr
  status : Nat
  pc : Nat
  bus : Bus

/-- `impl Memory for CPU`: forwards to the bus. -/
def CPU.mem_read (c : CPU) (addr : Nat) : Option (Nat × CPU) :=
  match c.bus.mem_read addr with
  | some (v, b) => some (v, { c with bus := b })
  | none => none

def CPU.mem_write (c : CPU) (addr value : Nat) : Option CPU :=
  match c.bus.mem_write addr value with
  | some b => some { c with bus := b }
  | none => none

def CPU.mem_read_u16 (c : CPU) (addr : Nat) : Option (Nat × CPU) :=
  match c.bus.mem_read_u16 addr with
  | some (v, b) => some (v, { c with bus := b })
  | none => none

def CPU.mem_write_u16 (c : CPU) (addr value : Nat) : Option CPU :=
  match c.bus.mem_write_u16 addr value with
  | some b => some { c with bus := b }
  | none => none

/-- src/cpu/cpu.rs `branch`: signed displacement read at the program counter,
target `(pc + 1) + displacement` with 16-bit wraparound. -/
def CPU.branch (c : CPU) : Option CPU := do
  let (jump, c) ← c.mem_read c.pc
  let jump_addr := (c.pc + 1 + sign_extend8 jump) % 65536
  some { c with pc := jump_addr }

def CPU.update_zero_and_negative_flags (c : CPU) (result : Nat) : CPU :=
  let st := flag_assign c.status CpuFlag.ZERO (result == 0)
  let st := flag_assign st CpuFlag.NEGATIVE (result &&& 0x80 != 0)
  { c with status := st }

def CPU.set_flag (c : CPU) (f : Nat) : CPU :=
  { c with status := flag_insert c.status f }

def CPU.clear_flag (c : CPU) (f : Nat) : CPU :=
  { c with status := flag_remove c.status f }

/-- src/cpu/cpu.rs `stack_push`: write at the current stack address, then
step the pointer (down in memory). -/
def CPU.stack_push (c : CPU) (value : Nat) : Option CPU := do
  let c ← c.mem_write c.stackptr.abs_addr value
  some { c with stackptr := c.stackptr.inc }

def CPU.stack_push_u16 (c : CPU) (value : Nat) : Option CPU := do
  let c ← c.stack_push (value >>> 8)
  c.stack_push (value &&& 0xFF)

/-- src/cpu/cpu.rs `stack_pop`: step the pointer back, then read. -/
def CPU.stack_pop (c : CPU) : Option (Nat × CPU) := do
  let c := { c with stackptr := c.stackptr.dec }
  let (v, c) ← c.mem_read c.stackptr.abs_addr
  some (v, c)

def CPU.stack_pop_u16 (c : CPU) : Option (Nat × CPU) := do
  let (lo, c) ← c.stack_pop
  let (hi, c) ← c.stack_pop
  some ((hi <<< 8) ||| lo, c)

def CPU.set_register_a (c : CPU) (value : Nat) : CPU :=
  let c := { c with register_a := value }
  c.update_zero_and_negative_flags c.register_a

def CPU.set_register_x (c : CPU) (value : Nat) : CPU :=
  let c := { c with register_x := value }
  c.update_zero_and_negative_flags c.register_x

def CPU.set_register_y (c : CPU) (value : Nat) : CPU :=
  let c := { c with register_y := value }
  c.update_zero_and_negative_flags c.register_y

/-- src/cpu/cpu.rs `get_operand_address`.  Zero-page index arithmetic wraps
at 8 bits, absolute index arithmetic at 16 bits; the indirect modes keep the
pointer fetch inside the zero page.  `NoneAddressing` is a panic. -/
def CPU.get_operand_address (c : CPU) (mode : AddressingMode) :
    Option (Nat × CPU) :=
  match mode with
  | .Immediate => some (c.pc, c)
  | .ZeroPage => c.mem_read c.pc
  | .Absolute => c.mem_read_u16 c.pc
  | .ZeroPage_X => do
      let (addr, c) ← c.mem_read c.pc
      some ((addr + c.register_x) % 256, c)
  | .ZeroPage_Y => do
      let (addr, c) ← c.mem_read c.pc
      some ((addr + c.register_y) % 256, c)
  | .Absolute_X => do
      let (base, c) ← c.mem_read_u16 c.pc
      some ((base + c.register_x) % 65536, c)
  | .Absolute_Y => do
      let (base, c) ← c.mem_read_u16 c.pc
      some ((base + c.register_y) % 65536, c)
  | .Indirect_X => do
      let (base, c) ← c.mem_read c.pc
      let ptr := (base + c.register_x) % 256
      let (lo, c) ← c.mem_read ptr
      let (hi, c) ← c.mem_read ((ptr + 1) % 256)
      some (lo + (hi <<< 8), c)
  | .Indirect_Y => do
      let (base, c) ← c.mem_read c.pc
      let (lo, c) ← c.mem_read (base % 256)
      let (hi, c) ← c.mem_read ((base + 1) % 256)
      some ((lo + (hi <<< 8) + c.register_y) % 65536, c)
  | .NoneAddressing => none

/-- src/cpu/cpu.rs `reset`: power-up register values, then the program
counter is seeded from the reset vector at 0xFFFC. -/
def CPU.reset (c : CPU) : Option CPU := do
  let c := { c with register_a := 0
                    register_x := 0
                    register_y := 0
                    stackptr := c.stackptr.reset
                    status := 0x24 }
  let (pc, c) ← c.mem_read_u16 0xFFFC
  some { c with pc := pc }

/-- src/cpu/cpu.rs `load`: writes the program bytes at 0x0600 upward through
the bus (the loop body of the `for` in the source). -/
def CPU.load_bytes (c : CPU) (base : Nat) : List Nat → Option CPU
  | [] => some c
  | v :: rest => do
      let c ← c.mem_write base v
      c.load_bytes ((base + 1) % 65536) rest

/-- src/cpu/cpu.rs `load`: program image at 0x0600, then the reset vector at
0xFFFC is written (through the bus) to point at 0x0600. -/
def CPU.load (c : CPU) (program : List Nat) : Option CPU := do
  let c ← c.load_bytes 0x0600 program
  c.mem_write_u16 0xFFFC 0x0600

/-! #### Instruction semantics (src/cpu/cpu.rs) -/

def CPU.op_bit (c : CPU) (mode : AddressingMode) : Option CPU := do
  let (addr, c) ← c.get_operand_address mode
  let (value, c) ← c.mem_read addr
  let st := flag_assign c.status CpuFlag.ZERO (value &&& c.register_a == 0)
  let st := flag_assign st CpuFlag.NEGATIVE (value &&& 0x80 == 0x80)
  let st := flag_assign st CpuFlag.OVERFLOW (value &&& 0x40 == 0x40)
  some { c with status := st }

def CPU.tax (c : CPU) : CPU := c.set_register_x c.register_a
def CPU.tay (c : CPU) : CPU := c.set_register_y c.register_a
def CPU.tsx (c : CPU) : CPU := c.set_register_x c.stackptr.rel_addr
def CPU.txa (c : CPU) : CPU := c.set_register_a c.register_x
def CPU.txs (c : CPU) : CPU := { c with stackptr := c.stackptr.set c.register_x }
def CPU.tya (c : CPU) : CPU := c.set_register_a c.register_y

def CPU.lda (c : CPU) (mode : AddressingMode) : Option CPU := do
  let (addr, c) ← c.get_operand_address mode
  let (value, c) ← c.mem_read addr
  some (c.set_register_a value)

def CPU.ldx (c : CPU) (mode : AddressingMode) : Option CPU := do
  let (addr, c) ← c.get_operand_address mode
  let (value, c) ← c.mem_read addr
  some (c.set_register_x value)

def CPU.ldy (c : CPU) (mode : AddressingMode) : Option CPU := do
  let (addr, c) ← c.get_operand_address mode
  let (value, c) ← c.mem_read addr
  some (c.set_register_y value)

def CPU.sta (c : CPU) (mode : AddressingMode) : Option CPU := do
  let (addr, c) ← c.get_operand_address mode
  c.mem_write addr c.register_a

def CPU.stx (c : CPU) (mode : AddressingMode) : Option CPU := do
  let (addr, c) ← c.get_operand_address mode
  c.mem_write addr c.register_x

def CPU.sty (c : CPU) (mode : AddressingMode) : Option CPU := do
  let (addr, c) ← c.get_operand_address mode
  c.mem_write addr c.register_y

def CPU.asl (c : CPU) (mode : AddressingMode) : Option CPU :=
  match mode with
  | .NoneAddressing =>
      let value := c.register_a
      let c := { c with status := flag_assign c.status CpuFlag.CARRY (value >>> 7 == 1) }
      some (c.set_register_a ((value <<< 1) % 256))
  | _ => do
      let (addr, c) ← c.get_operand_address mode
      let (value, c) ← c.mem_read addr
      let c := { c with status := flag_assign c.status CpuFlag.CARRY (value >>> 7 == 1) }
      let value := (value <<< 1) % 256
      let c ← c.mem_write addr value
      some (c.update_zero_and_negative_flags value)

def CPU.lsr (c : CPU) (mode : AddressingMode) : Option CPU :=
  match mode with
  | .NoneAddressing =>
      let value := c.register_a
      let c := { c with status := flag_assign c.status CpuFlag.CARRY (value &&& 1 == 1) }
      some (c.set_register_a (value >>> 1))
  | _ => do
      let (addr, c) ← c.get_operand_address mode
      let (value, c) ← c.mem_read addr
      let c := { c with status := flag_assign c.status CpuFlag.CARRY (value &&& 1 == 1) }
      let value := value >>> 1
      let c ← c.mem_write addr value
      some (c.update_zero_and_negative_flags value)

def CPU.rol (c : CPU) (mode : AddressingMode) : Option CPU :=
  match mode with
  | .NoneAddressing =>
      let value := c.register_a
      let old_carry := flag_contains c.status CpuFlag.CARRY
      let c := { c with status := flag_assign c.status CpuFlag.CARRY (value >>> 7 == 1) }
      let value := (value <<< 1) % 256
      let value := if old_carry then value ||| 1 else value
      some (c.set_register_a value)
  | _ => do
      let (addr, c) ← c.get_operand_address mode
      let (value, c) ← c.mem_read addr
      let old_carry := flag_contains c.status CpuFlag.CARRY
      let c := { c with status := flag_assign c.status CpuFlag.CARRY (value >>> 7 == 1) }
      let value := (value <<< 1) % 256
      let value := if old_carry then value ||| 1 else value
      let c ← c.mem_write addr value
      some (c.update_zero_and_negative_flags value)

def CPU.ror (c : CPU) (mode : AddressingMode) : Option CPU :=
  match mode with
  | .NoneAddressing =>
      let value := c.register_a
      let old_carry := flag_contains c.status CpuFlag.CARRY
      let c := { c with status := flag_assign c.status CpuFlag.CARRY (value &&& 1 == 1) }
      let value := value >>> 1
      let value := if old_carry then value ||| 0x80 else value
      some (c.set_register_a value)
  | _ => do
      let (addr, c) ← c.get_operand_address mode
      let (value, c) ← c.mem_read addr
      let old_carry := flag_contains c.status CpuFlag.CARRY
      let c := { c with status := flag_assign c.status CpuFlag.CARRY (value &&& 1 == 1) }
      let value := value >>> 1
      let value := if old_carry then value ||| 0x80 else value
      let c ← c.mem_write addr value
      some (c.update_zero_and_negative_flags value)

def CPU.pha (c : CPU) : Option CPU := c.stack_push c.register_a

def CPU.pla (c : CPU) : Option CPU := do
  let (value, c) ← c.stack_pop
  some (c.set_register_a value)

/-- src/cpu/cpu.rs `php`: the pushed copy of the flags has BREAK and BREAK2
inserted. -/
def CPU.php (c : CPU) : Option CPU :=
  c.stack_push (flag_insert (flag_insert c.status CpuFlag.BREAK) CpuFlag.BREAK2)

/-- src/cpu/cpu.rs `plp`: the popped byte becomes the flags, then BREAK is
cleared and BREAK2 is set. -/
def CPU.plp (c : CPU) : Option CPU := do
  let (value, c) ← c.stack_pop
  let c := { c with status := value }
  let c := c.clear_flag CpuFlag.BREAK
  some (c.set_flag CpuFlag.BREAK2)

def CPU.op_and (c : CPU) (mode : AddressingMode) : Option CPU := do
  let (addr, c) ← c.get_operand_address mode
  let (value, c) ← c.mem_read addr
  some (c.set_register_a (c.register_a &&& value))

def CPU.ora (c : CPU) (mode : AddressingMode) : Option CPU := do
  let (addr, c) ← c.get_operand_address mode
  let (value, c) ← c.mem_read addr
  some (c.set_register_a (c.register_a ||| value))

def CPU.eor (c : CPU) (mode : AddressingMode) : Option CPU := do
  let (addr, c) ← c.get_operand_address mode
  let (value, c) ← c.mem_read addr
  some (c.set_register_a (c.register_a ^^^ value))

def CPU.bpl (c : CPU) : Option CPU :=
  if flag_contains c.status CpuFlag.NEGATIVE then some c else c.branch

def CPU.bmi (c : CPU) : Option CPU :=
  if flag_contains c.status CpuFlag.NEGATIVE then c.branch else some c

def CPU.bvc (c : CPU) : Option CPU :=
  if flag_contains c.status CpuFlag.OVERFLOW then some c else c.branch

def CPU.bvs (c : CPU) : Option CPU :=
  if flag_contains c.status CpuFlag.OVERFLOW then c.branch else some c

def CPU.bcc (c : CPU) : Option CPU :=
  if flag_contains c.status CpuFlag.CARRY then some c else c.branch

def CPU.bcs (c : CPU) : Option CPU :=
  if flag_contains c.status CpuFlag.CARRY then c.branch else some c

def CPU.bne (c : CPU) : Option CPU :=
  if flag_contains c.status CpuFlag.ZERO then some c else c.branch

def CPU.beq (c : CPU) : Option CPU :=
  if flag_contains c.status CpuFlag.ZERO then c.branch else some c

def CPU.cmp (c : CPU) (mode : AddressingMode) : Option CPU := do
  let (addr, c) ← c.get_operand_address mode
  let (value, c) ← c.mem_read addr
  let c := { c with status := flag_assign c.status CpuFlag.CARRY (value ≤ c.register_a) }
  some (c.update_zero_and_negative_flags (wrapping_sub8 c.register_a value))

def CPU.cpx (c : CPU) (mode : AddressingMode) : Option CPU := do
  let (addr, c) ← c.get_operand_address mode
  let (value, c) ← c.mem_read addr
  let c := { c with status := flag_assign c.status CpuFlag.CARRY (value ≤ c.register_x) }
  some (c.update_zero_and_negative_flags (wrapping_sub8 c.register_x value))

def CPU.cpy (c : CPU) (mode : AddressingMode) : Option CPU := do
  let (addr, c) ← c.get_operand_address mode
  let (value, c) ← c.mem_read addr
  let c := { c with status := flag_assign c.status CpuFlag.CARRY (value ≤ c.register_y) }
  some (c.update_zero_and_negative_flags (wrapping_sub8 c.register_y value))

def CPU.inc (c : CPU) (mode : AddressingMode) : Option CPU := do
  let (addr, c) ← c.get_operand_address mode
  let (value, c) ← c.mem_read addr
  let value := (value + 1) % 256
  let c ← c.mem_write addr value
  some (c.update_zero_and_negative_flags value)

def CPU.inx (c : CPU) : CPU := c.set_register_x ((c.register_x + 1) % 256)
def CPU.iny (c : CPU) : CPU := c.set_register_y ((c.register_y + 1) % 256)

def CPU.dec (c : CPU) (mode : AddressingMode) : Option CPU := do
  let (addr, c) ← c.get_operand_address mode
  let (value, c) ← c.mem_read addr
  let value := wrapping_sub8 value 1
  let c ← c.mem_write addr value
  some (c.update_zero_and_negative_flags value)

def CPU.dex (c : CPU) : CPU := c.set_register_x (wrapping_sub8 c.register_x 1)
def CPU.dey (c : CPU) : CPU := c.set_register_y (wrapping_sub8 c.register_y 1)

/-- src/cpu/cpu.rs `jmp`: the absolute form jumps to the operand; the
indirect form (dispatched as `NoneAddressing`) reproduces the 6502 bug where
a pointer at `xxFF` takes its high byte from `xx00` of the same page. -/
def CPU.jmp (c : CPU) (mode : AddressingMode) : Option CPU :=
  match mode with
  | .Absolute => do
      let (addr, c) ← c.mem_read_u16 c.pc
      some { c with pc := addr }
  | .NoneAddressing => do
      let (addr, c) ← c.mem_read_u16 c.pc
      if addr &&& 0x00FF = 0x00FF then do
        let (lo, c) ← c.mem_read addr
        let (hi, c) ← c.mem_read (addr &&& 0xFF00)
        some { c with pc := (hi <<< 8) ||| lo }
      else do
        let (indirect_ref, c) ← c.mem_read_u16 addr
        some { c with pc := indirect_ref }
  | _ => none

/-- src/cpu/cpu.rs `jsr`: pushes `pc + 2 - 1`, then jumps to the operand. -/
def CPU.jsr (c : CPU) : Option CPU := do
  let c ← c.stack_push_u16 ((c.pc + 1) % 65536)
  let (addr, c) ← c.mem_read_u16 c.pc
  some { c with pc := addr }

/-- src/cpu/cpu.rs `rti`: pops the flags (with the BREAK/BREAK2
normalisation), then pops the return address. -/
def CPU.rti (c : CPU) : Option CPU := do
  let (value, c) ← c.stack_pop
  let c := { c with status := value }
  let c := c.clear_flag CpuFlag.BREAK
  let c := c.set_flag CpuFlag.BREAK2
  let (pc, c) ← c.stack_pop_u16
  some { c with pc := pc }

def CPU.rts (c : CPU) : Option CPU := do
  let (pc, c) ← c.stack_pop_u16
  some { c with pc := (pc + 1) % 65536 }

/-- src/cpu/cpu.rs `add_to_register_a`: 9-bit sum with incoming carry; carry
out when the sum exceeds 0xFF; overflow from the same-sign-operands,
differing-result-sign rule; the result lands in the accumulator through
`set_register_a`. -/
def CPU.add_to_register_a (c : CPU) (value : Nat) : CPU :=
  let sum := c.register_a + value +
    (if flag_contains c.status CpuFlag.CARRY then 1 else 0)
  let carry := 0xFF < sum
  let c := if carry then c.set_flag CpuFlag.CARRY else c.clear_flag CpuFlag.CARRY
  let result := sum % 256
  let c := if (value ^^^ result) &&& (result ^^^ c.register_a) &&& 0x80 ≠ 0 then
    c.set_flag CpuFlag.OVERFLOW
  else
    c.clear_flag CpuFlag.OVERFLOW
  c.set_register_a result

/-- src/cpu/cpu.rs `sbc`: adds `(value as i8).wrapping_neg().wrapping_sub(1)`,
which is the byte complement `255 - value`. -/
def CPU.sbc (c : CPU) (mode : AddressingMode) : Option CPU := do
  let (addr, c) ← c.get_operand_address mode
  let (value, c) ← c.mem_read addr
  some (c.add_to_register_a (255 - value % 256))

def CPU.adc (c : CPU) (mode : AddressingMode) : Option CPU := do
  let (addr, c) ← c.get_operand_address mode
  let (value, c) ← c.mem_read addr
  some (c.add_to_register_a value)

/-- Result of one iteration of the interpreter loop: the `BRK` arm returns
from `run_with_callback`, every other arm continues. -/
inductive StepResult
  | halt (c : CPU)
  | next (c : CPU)

/-- One iteration of src/cpu/cpu.rs `run_with_callback` (with the trivial
callback of `run`): fetch the opcode, advance the program counter, remember
it, look the opcode up in the static table (a panic when absent), dispatch,
and finally — when the instruction left the program counter at its
post-fetch value — advance it by `byte-length − 1`. -/
def CPU.runStep (c : CPU) : Option StepResult := do
  let (opcode, c) ← c.mem_read c.pc
  let c := { c with pc := (c.pc + 1) % 65536 }
  let program_counter_old := c.pc
  let instr ← OPCODES_MAP opcode
  let after := fun (c : CPU) =>
    if c.pc = program_counter_old then
      some (StepResult.next { c with pc := (c.pc + (instr.bytes - 1)) % 65536 })
    else
      some (StepResult.next c)
  if opcode = 0x00 then some (StepResult.halt c)
  else if opcode = 0xEA then after c
  else if opcode = 0x24 ∨ opcode = 0x2C then do after (← c.op_bit instr.addressing_mode)
  else if opcode = 0xAA then after c.tax
  else if opcode = 0xA8 then after c.tay
  else if opcode = 0xBA then after c.tsx
  else if opcode = 0x8A then after c.txa
  else if opcode = 0x9A then after c.txs
  else if opcode = 0x98 then after c.tya
  else if opcode = 0x18 then after (c.clear_flag CpuFlag.CARRY)
  else if opcode = 0xD8 then after (c.clear_flag CpuFlag.DECIMAL_MODE)
  else if opcode = 0x58 then after (c.clear_flag CpuFlag.INTERRUPT_DISABLE)
  else if opcode = 0xB8 then after (c.clear_flag CpuFlag.OVERFLOW)
  else if opcode = 0x38 then after (c.set_flag CpuFlag.CARRY)
  else if opcode = 0xF8 then after (c.set_flag CpuFlag.DECIMAL_MODE)
  else if opcode = 0x78 then after (c.set_flag CpuFlag.INTERRUPT_DISABLE)
  else if opcode = 0xA9 ∨ opcode = 0xA5 ∨ opcode = 0xB5 ∨ opcode = 0xAD ∨ opcode = 0xBD ∨ opcode = 0xB9 ∨ opcode = 0xA1 ∨ opcode = 0xB1 then do after (← c.lda instr.addressing_mode)
  else if opcode = 0xA2 ∨ opcode = 0xA6 ∨ opcode = 0xB6 ∨ opcode = 0xAE ∨ opcode = 0xBE then do after (← c.ldx instr.addressing_mode)
  else if opcode = 0xA0 ∨ opcode = 0xA4 ∨ opcode = 0xB4 ∨ opcode = 0xAC ∨ opcode = 0xBC then do after (← c.ldy instr.addressing_mode)
  else if opcode = 0x85 ∨ opcode = 0x95 ∨ opcode = 0x8D ∨ opcode = 0x9D ∨ opcode = 0x99 ∨ opcode = 0x81 ∨ opcode = 0x91 then do after (← c.sta instr.addressing_mode)
  else if opcode = 0x86 ∨ opcode = 0x96 ∨ opcode = 0x8E then do after (← c.stx instr.addressing_mode)
  else if opcode = 0x84 ∨ opcode = 0x94 ∨ opcode = 0x8C then do after (← c.sty instr.addressing_mode)
  else if opcode = 0x0A ∨ opcode = 0x06 ∨ opcode = 0x16 ∨ opcode = 0x0E ∨ opcode = 0x1E then do after (← c.asl instr.addressing_mode)
  else if opcode = 0x4A ∨ opcode = 0x46 ∨ opcode = 0x56 ∨ opcode = 0x4E ∨ opcode = 0x5E then do after (← c.lsr instr.addressing_mode)
  else if opcode = 0x2A ∨ opcode = 0x26 ∨ opcode = 0x36 ∨ opcode = 0x2E ∨ opcode = 0x3E then do after (← c.rol instr.addressing_mode)
  else if opcode = 0x6A ∨ opcode = 0x66 ∨ opcode = 0x76 ∨ opcode = 0x6E ∨ opcode = 0x7E then do after (← c.ror instr.addressing_mode)
  else if opcode = 0x48 then do after (← c.pha)
  else if opcode = 0x68 then do after (← c.pla)
  else if opcode = 0x08 then do after (← c.php)
  else if opcode = 0x28 then do after (← c.plp)
  else if opcode = 0x29 ∨ opcode = 0x25 ∨ opcode = 0x35 ∨ opcode = 0x2D ∨ opcode = 0x3D ∨ opcode = 0x39 ∨ opcode = 0x21 ∨ opcode = 0x31 then do after (← c.op_and instr.addressing_mode)
  else if opcode = 0x09 ∨ opcode = 0x05 ∨ opcode = 0x15 ∨ opcode = 0x0D ∨ opcode = 0x1D ∨ opcode = 0x19 ∨ opcode = 0x01 ∨ opcode = 0x11 then do after (← c.ora instr.addressing_mode)
  else if opcode = 0x49 ∨ opcode = 0x45 ∨ opcode = 0x55 ∨ opcode = 0x4D ∨ opcode = 0x5D ∨ opcode = 0x59 ∨ opcode = 0x41 ∨ opcode = 0x51 then do after (← c.eor instr.addressing_mode)
  else if opcode = 0x10 then do after (← c.bpl)
  else if opcode = 0x30 then do after (← c.bmi)
  else if opcode = 0x50 then do after (← c.bvc)
  else if opcode = 0x70 then do after (← c.bvs)
  else if opcode = 0x90 then do after (← c.bcc)
  else if opcode = 0xB0 then do after (← c.bcs)
  else if opcode = 0xD0 then do after (← c.bne)
  else if opcode = 0xF0 then do after (← c.beq)
  else if opcode = 0xC9 ∨ opcode = 0xC5 ∨ opcode = 0xD5 ∨ opcode = 0xCD ∨ opcode = 0xDD ∨ opcode = 0xD9 ∨ opcode = 0xC1 ∨ opcode = 0xD1 then do after (← c.cmp instr.addressing_mode)
  else if opcode = 0xE0 ∨ opcode = 0xE4 ∨ opcode = 0xEC then do after (← c.cpx instr.addressing_mode)
  else if opcode = 0xC0 ∨ opcode = 0xC4 ∨ opcode = 0xCC then do after (← c.cpy instr.addressing_mode)
  else if opcode = 0xE6 ∨ opcode = 0xF6 ∨ opcode = 0xEE ∨ opcode = 0xFE then do after (← c.inc instr.addressing_mode)
  else if opcode = 0xE8 then after c.inx
  else if opcode = 0xC8 then after c.iny
  else if opcode = 0xC6 ∨ opcode = 0xD6 ∨ opcode = 0xCE ∨ opcode = 0xDE then do after (← c.dec instr.addressing_mode)
  else if opcode = 0xCA then after c.dex
  else if opcode = 0x88 then after c.dey
  else if opcode = 0x4C ∨ opcode = 0x6C then do after (← c.jmp instr.addressing_mode)
  else if opcode = 0x20 then do after (← c.jsr)
  else if opcode = 0x40 then do after (← c.rti)
  else if opcode = 0x60 then do after (← c.rts)
  else if opcode = 0x69 ∨ opcode = 0x65 ∨ opcode = 0x75 ∨ opcode = 0x6D ∨ opcode = 0x7D ∨ opcode = 0x79 ∨ opcode = 0x61 ∨ opcode = 0x71 then do after (← c.adc instr.addressing_mode)
  else if opcode = 0xE9 ∨ opcode = 0xE5 ∨ opcode = 0xF5 ∨ opcode = 0xED ∨ opcode = 0xFD ∨ opcode = 0xF9 ∨ opcode = 0xE1 ∨ opcode = 0xF1 then do after (← c.sbc instr.addressing_mode)
  else none

/-- The `loop` of src/cpu/cpu.rs `run_with_callback`, made total with a fuel
parameter: `some` is reached only when a `BRK` returns within the given
number of iterations. -/
def CPU.runLoop : Nat → CPU → Option CPU
  | 0, _ => none
  | fuel + 1, c =>
      match c.runStep with
      | some (StepResult.halt c) => some c
      | some (StepResult.next c) => c.runLoop fuel
      | none => none

/-- src/cpu/cpu.rs `load_and_run`: `load`, `reset`, `run`. -/
def CPU.load_and_run (c : CPU) (program : List Nat) (fuel : Nat) : Option CPU := do
  let c ← c.load program
  let c ← c.reset
  c.runLoop fuel

/-- A concrete freshly constructed register bank (no graphics storage,
vertical mirroring), as produced by `Ppu::new`. -/
def ppu0 : Ppu := Ppu.new 0 (fun _ => 0) Mirroring.Vertical

/-- A concrete bus for witnesses: a 16 KiB cartridge image that stores 7 in
every cell, no graphics storage. -/
def bus0 : Bus := Bus.new 0x4000 (fun _ => 7) 0 (fun _ => 0) Mirroring.Vertical

/-- A concrete CPU for witnesses. -/
def cpu0 : CPU where
  register_a := 0
  register_x := 0
  register_y := 0
  stackptr := StackPtr.new
  status := 0x24
  pc := 0
  bus := bus0

/-! ### General lemmas about the bus dispatch -/

theorem Bus.mem_read_wram (b : Bus) (addr : Nat) (h : addr ≤ 0x1FFF) :
    b.mem_read addr = some (b.cpu_wram (addr &&& 0x7FF),
      { b with open_bus := b.cpu_wram (addr &&& 0x7FF) }) := by
  unfold Bus.mem_read
  rw [if_pos h]

theorem Bus.mem_read_open (b : Bus) (addr : Nat) (h1 : 0x4000 ≤ addr)
    (h2 : addr < 0x8000) (h3 : addr ≠ 0x4016) (h4 : addr ≠ 0x4017) :
    b.mem_read addr = some (b.open_bus, b) := by
  unfold Bus.mem_read
  iterate 8 rw [if_neg (by omega)]

theorem Bus.mem_write_wram (b : Bus) (addr value : Nat) (h : addr ≤ 0x1FFF) :
    b.mem_write addr value =
      some { b with cpu_wram := upd b.cpu_wram (addr &&& 0x7FF) value } := by
  unfold Bus.mem_write
  rw [if_pos h]

theorem Bus.mem_write_high (b : Bus) (addr value : Nat) (h : 0x4000 ≤ addr) :
    b.mem_write addr value = none := by
  unfold Bus.mem_write
  iterate 9 rw [if_neg (by omega)]
  split
  · rfl
  · split <;> rfl

theorem Bus.read_prg_rom_eq (b : Bus) (addr : Nat) (h1 : 0x8000 ≤ addr)
    (h2 : addr ≤ 0xFFFF) (h3 : b.prg_len = 0x4000 ∨ b.prg_len = 0x8000) :
    b.read_prg_rom addr = some (b.prg_rom ((addr - 0x8000) % b.prg_len)) := by
  unfold Bus.read_prg_rom idx
  dsimp only
  rcases h3 with h3 | h3 <;> rw [h3]
  · by_cases hc : 0x4000 ≤ addr - 0x8000
    · have e1 : (if (0x4000 : Nat) = 0x4000 ∧ 0x4000 ≤ addr - 0x8000
          then (addr - 0x8000) % 0x4000 else addr - 0x8000) =
          (addr - 0x8000) % 0x4000 := if_pos ⟨rfl, hc⟩
      rw [e1, if_pos (Nat.mod_lt _ (by norm_num))]
    · have e1 : (if (0x4000 : Nat) = 0x4000 ∧ 0x4000 ≤ addr - 0x8000
          then (addr - 0x8000) % 0x4000 else addr - 0x8000) =
          addr - 0x8000 := if_neg (by omega)
      rw [e1, if_pos (by omega), Nat.mod_eq_of_lt (by omega)]
  · have e1 : (if (0x8000 : Nat) = 0x4000 ∧ 0x4000 ≤ addr - 0x8000
        then (addr - 0x8000) % 0x4000 else addr - 0x8000) =
        addr - 0x8000 := if_neg (by omega)
    rw [e1, if_pos (by omega), Nat.mod_eq_of_lt (by omega)]

theorem Bus.mem_read_rom (b : Bus) (addr : Nat) (h1 : 0x8000 ≤ addr)
    (h2 : addr ≤ 0xFFFF) (h3 : b.prg_len = 0x4000 ∨ b.prg_len = 0x8000) :
    b.mem_read addr = some (b.prg_rom ((addr - 0x8000) % b.prg_len),
      { b with open_bus := b.prg_rom ((addr - 0x8000) % b.prg_len) }) := by
  unfold Bus.mem_read
  iterate 7 rw [if_neg (by omega)]
  rw [if_pos ⟨h1, h2⟩, Bus.read_prg_rom_eq b addr h1 h2 h3]

/-! ### Bit-arithmetic toolkit -/

theorem and_mask_7FF (a : Nat) (h : a < 0x800) : a &&& 0x7FF = a := by
  have : a &&& 0x7FF = a % 0x800 := Nat.and_pow_two_sub_one_eq_mod a 11
  rw [this, Nat.mod_eq_of_lt h]

theorem and_or_absorb (y m : Nat) : (y &&& m) ||| m = m := by
  apply Nat.eq_of_testBit_eq
  intro i
  rw [Nat.testBit_or, Nat.testBit_and]
  cases y.testBit i <;> cases m.testBit i <;> rfl

theorem push_pop_status_norm (x : Nat) :
    ((x ||| 0x10 ||| 0x20) &&& 0xEF) ||| 0x20 = (x &&& 0xEF) ||| 0x20 := by
  rw [Nat.and_distrib_right, Nat.and_distrib_right]
  have h1 : (0x10 : Nat) &&& 0xEF = 0 := by decide
  have h2 : (0x20 : Nat) &&& 0xEF = 0x20 := by decide
  rw [h1, h2, Nat.or_zero, Nat.or_assoc, Nat.or_self]

theorem pop_status_break_clear (y : Nat) : ((y &&& 0xEF) ||| 0x20) &&& 0x10 = 0 := by
  rw [Nat.and_distrib_right, Nat.and_assoc]
  have h1 : (0xEF : Nat) &&& 0x10 = 0 := by decide
  have h2 : (0x20 : Nat) &&& 0x10 = 0 := by decide
  rw [h1, h2, Nat.and_zero, Nat.or_zero]

theorem pop_status_break2_set (y : Nat) : ((y &&& 0xEF) ||| 0x20) &&& 0x20 = 0x20 := by
  rw [Nat.and_distrib_right, Nat.and_assoc]
  have h1 : (0xEF : Nat) &&& 0x20 = 0x20 := by decide
  have h2 : (0x20 : Nat) &&& 0x20 = 0x20 := by decide
  rw [h1, h2, and_or_absorb]

theorem xor_stride_and_mask (a k : Nat) : (a ^^^ k * 0x800) &&& 0x7FF = a &&& 0x7FF := by
  have hmask : ∀ x : Nat, x &&& 0x7FF = x % 2 ^ 11 := fun x =>
    Nat.and_pow_two_sub_one_eq_mod x 11
  rw [hmask, hmask]
  apply Nat.eq_of_testBit_eq
  intro i
  rw [Nat.testBit_mod_two_pow, Nat.testBit_mod_two_pow, Nat.testBit_xor]
  by_cases hi : i < 11
  · have hshift : k * 0x800 = k <<< 11 := by rw [Nat.shiftLeft_eq]
    rw [hshift, Nat.testBit_shiftLeft]
    have : ¬ (11 ≤ i) := by omega
    simp [this]
  · simp [hi]

theorem xor_stride_lt (a k : Nat) (ha : a < 0x2000) (hk : k < 4) :
    a ^^^ k * 0x800 < 0x2000 := by
  have h1 : a < 2 ^ 13 := ha
  have h2 : k * 0x800 < 2 ^ 13 := by omega
  exact Nat.xor_lt_two_pow h1 h2

/-! ### CPU-level memory access lemmas -/

theorem CPU.read_wram_eq (c : CPU) (addr : Nat) (h : addr ≤ 0x1FFF) :
    c.mem_read addr = some (c.bus.cpu_wram (addr &&& 0x7FF),
      { c with bus := { c.bus with
          open_bus := c.bus.cpu_wram (addr &&& 0x7FF) } }) := by
  unfold CPU.mem_read
  rw [Bus.mem_read_wram c.bus addr h]

theorem CPU.write_wram_eq (c : CPU) (addr value : Nat) (h : addr ≤ 0x1FFF) :
    c.mem_write addr value = some { c with bus := { c.bus with
      cpu_wram := upd c.bus.cpu_wram (addr &&& 0x7FF) value } } := by
  unfold CPU.mem_write
  rw [Bus.mem_write_wram c.bus addr value h]

theorem CPU.mem_read_u16_wram (c : CPU) (addr : Nat) (h : addr + 1 ≤ 0x1FFF) :
    c.mem_read_u16 addr = some (c.bus.cpu_wram (addr &&& 0x7FF) +
      (c.bus.cpu_wram ((addr + 1) &&& 0x7FF) <<< 8),
      { c with bus := { c.bus with
          open_bus := c.bus.cpu_wram ((addr + 1) &&& 0x7FF) } }) := by
  unfold CPU.mem_read_u16 Bus.mem_read_u16
  rw [Bus.mem_read_wram c.bus addr (by omega)]
  simp only [Option.bind_eq_bind, Option.some_bind]
  rw [Nat.mod_eq_of_lt (show addr + 1 < 65536 by omega)]
  rw [Bus.mem_read_wram _ (addr + 1) (by omega)]
  simp only [Option.bind_eq_bind, Option.some_bind]

/-- Evaluation of `stack_push` when the 8-bit stack offset invariant holds:
the pushed byte lands at `0x0100 + offset` in work RAM and the offset steps
down with wraparound. -/
theorem CPU.stack_push_eq (c : CPU) (value : Nat) (hs : c.stackptr.addr < 256) :
    c.stack_push value = some { c with
      bus := { c.bus with
        cpu_wram := upd c.bus.cpu_wram (0x100 + c.stackptr.addr) value }
      stackptr := ⟨(c.stackptr.addr + 255) % 256⟩ } := by
  unfold CPU.stack_push StackPtr.abs_addr STACK
  rw [CPU.write_wram_eq c _ value (by omega)]
  rw [and_mask_7FF _ (by omega)]
  rfl

/-- Evaluation of `stack_pop` under the same invariant: the offset steps up
with wraparound and the byte at the new `0x0100 + offset` is returned (the
read also captures it as the open-bus byte). -/
theorem CPU.stack_pop_eq (c : CPU) (hs : c.stackptr.addr < 256) :
    c.stack_pop = some (c.bus.cpu_wram (0x100 + (c.stackptr.addr + 1) % 256),
      { c with
        stackptr := ⟨(c.stackptr.addr + 1) % 256⟩
        bus := { c.bus with
          open_bus := c.bus.cpu_wram (0x100 + (c.stackptr.addr + 1) % 256) } }) := by
  unfold CPU.stack_pop StackPtr.abs_addr StackPtr.dec STACK
  dsimp only
  rw [CPU.read_wram_eq _ (0x100 + (c.stackptr.addr + 1) % 256)
    (by have := Nat.mod_lt (c.stackptr.addr + 1) (show 0 < 256 by norm_num); omega)]
  rw [and_mask_7FF _
    (by have := Nat.mod_lt (c.stackptr.addr + 1) (show 0 < 256 by norm_num); omega)]
  rfl

/-- Evaluation of `php` under the stack-offset invariant: the flag byte with
BREAK and BREAK2 inserted is written at `0x0100 + offset`. -/
theorem CPU.php_eq (c : CPU) (hs : c.stackptr.addr < 256) :
    c.php = some { c with
      bus := { c.bus with
        cpu_wram := upd c.bus.cpu_wram (0x100 + c.stackptr.addr)
          (c.status ||| 0x10 ||| 0x20) }
      stackptr := ⟨(c.stackptr.addr + 255) % 256⟩ } := by
  unfold CPU.php
  rw [CPU.stack_push_eq c _ hs]
  rfl

/-- Evaluation of `plp` under the stack-offset invariant: the popped byte
lands in the flag register with BREAK cleared and BREAK2 set. -/
theorem CPU.plp_eq (c : CPU) (hs : c.stackptr.addr < 256) :
    c.plp = some { c with
      stackptr := ⟨(c.stackptr.addr + 1) % 256⟩
      bus := { c.bus with
        open_bus := c.bus.cpu_wram (0x100 + (c.stackptr.addr + 1) % 256) }
      status := (c.bus.cpu_wram (0x100 + (c.stackptr.addr + 1) % 256) &&& 0xEF)
        ||| 0x20 } := by
  unfold CPU.plp
  rw [CPU.stack_pop_eq c hs]
  simp only [Option.bind_eq_bind, Option.some_bind]
  rfl

/-- Evaluation of `rti` under the stack-offset invariant: flags are popped
with the BREAK/BREAK2 normalisation, then the return address is popped. -/
theorem CPU.rti_eq (c : CPU) (hs : c.stackptr.addr < 256) :
    c.rti = some { c with
      stackptr := ⟨(((c.stackptr.addr + 1) % 256 + 1) % 256 + 1) % 256⟩
      status := (c.bus.cpu_wram (0x100 + (c.stackptr.addr + 1) % 256) &&& 0xEF)
        ||| 0x20
      pc := (c.bus.cpu_wram
          (0x100 + (((c.stackptr.addr + 1) % 256 + 1) % 256 + 1) % 256) <<< 8) |||
        c.bus.cpu_wram (0x100 + ((c.stackptr.addr + 1) % 256 + 1) % 256)
      bus := { c.bus with
        open_bus := c.bus.cpu_wram
          (0x100 + (((c.stackptr.addr + 1) % 256 + 1) % 256 + 1) % 256) } } := by
  unfold CPU.rti
  rw [CPU.stack_pop_eq c hs]
  simp only [Option.bind_eq_bind, Option.some_bind]
  unfold CPU.stack_pop_u16
  rw [CPU.stack_pop_eq]
  simp only [Option.bind_eq_bind, Option.some_bind]
  rw [CPU.stack_pop_eq]
  simp only [Option.bind_eq_bind, Option.some_bind]
  · rfl
  · dsimp only
    exact Nat.mod_lt _ (by norm_num)
  · dsimp only
    exact Nat.mod_lt _ (by norm_num)

theorem CPU.mem_write_u16_high (c : CPU) (addr value : Nat) (h : 0x4000 ≤ addr) :
    c.mem_write_u16 addr value = none := by
  unfold CPU.mem_write_u16 Bus.mem_write_u16
  rw [Bus.mem_write_high _ _ _ h]
  rfl

/-! ### Claim theorems -/

/-- Claim C1 (status: code_bug).  The claim says a freshly constructed
register bank with 0x80 written twice to the address register holds the
internal address 0x8000.  Evaluating the code at that input: the first write
takes the `latch = false` arm (`value |= 0x0F; value += 0x80 << 8`), giving
0x800F, and the second takes the `latch = true` arm (`value |= 0xF0;
value += 0x80`), giving 0x817F — not 0x8000.  The second half of the claim
does hold: a status read resets the latch to its high-byte-next state. -/
theorem c1_address_latch_bug :
    ((ppu0.write_to_address 0x80).write_to_address 0x80).reg_address.get_addr
        = 0x817F ∧
    ((ppu0.write_to_address 0x80).write_to_address 0x80).reg_address.get_addr
        ≠ 0x8000 ∧
    ((ppu0.write_to_address 0x80).write_to_address
        0x80).get_status.2.address_latch = false :=
  ⟨by decide, by decide, rfl⟩

/-- Claim C3 (status: code_bug).  The claim says a data read with the
internal address in 0x3F00–0x3FFF returns the addressed byte immediately.
Evaluating the code at internal address 0x3F00 (on an otherwise fresh bank):
the palette arm indexes the 2048-byte `vram` array at
`(addr - 0x3F00) % 0x20 + 0x3F00 = 0x3F00`, which is out of bounds, so the
read terminates abnormally instead of returning a byte. -/
theorem c3_palette_read_bug :
    Ppu.read { ppu0 with reg_address := ⟨0x3F00⟩ } = none := rfl

/-- Claim C9 (status: confirmed).  A bus read of 0x4016 or 0x4017 reaches the
unimplemented joypad branch and terminates execution, while every other
address between the peripheral-register range and the cartridge range falls
into the wildcard arm and returns the stale open-bus byte with no state
change. -/
theorem c9_joypad_read_panics (b : Bus) :
    b.mem_read 0x4016 = none ∧ b.mem_read 0x4017 = none ∧
    ∀ addr, 0x4000 ≤ addr → addr < 0x8000 → addr ≠ 0x4016 → addr ≠ 0x4017 →
      b.mem_read addr = some (b.open_bus, b) := by
  refine ⟨?_, ?_, fun addr h1 h2 h3 h4 => Bus.mem_read_open b addr h1 h2 h3 h4⟩
  · unfold Bus.mem_read
    iterate 6 rw [if_neg (by omega)]
    rw [if_pos (by omega)]
  · unfold Bus.mem_read
    iterate 6 rw [if_neg (by omega)]
    rw [if_pos (by omega)]

/-- Witness for C9 at the concrete bus `bus0` and the concrete open address
0x4020. -/
theorem c9_witness :
    bus0.mem_read 0x4016 = none ∧
    bus0.mem_read 0x4020 = some (bus0.open_bus, bus0) :=
  ⟨(c9_joypad_read_panics bus0).1,
   (c9_joypad_read_panics bus0).2.2 0x4020 (by omega) (by omega) (by omega)
     (by omega)⟩

/-- Claim C4 (status: code_bug).  The claim says loading
`[0xA9, 0xFF, 0x69, 0x01, 0x00]` and running yields A = 0 with carry and
zero set.  Evaluating the code: `load` writes the five program bytes into
work RAM at 0x0600 and then writes the reset vector through the bus at
0xFFFC — an address in the cartridge range, whose write arm is a `panic!` —
so `load_and_run` terminates abnormally before `run` ever starts, from every
starting CPU state and for every iteration budget. -/
theorem c4_load_and_run_panics (c : CPU) (fuel : Nat) :
    c.load_and_run [0xA9, 0xFF, 0x69, 0x01, 0x00] fuel = none := by
  unfold CPU.load_and_run CPU.load
  simp only [CPU.load_bytes, Option.bind_eq_bind]
  rw [CPU.write_wram_eq _ _ _ (by omega)]
  simp only [Option.some_bind]
  rw [CPU.write_wram_eq _ _ _ (by omega)]
  simp only [Option.some_bind]
  rw [CPU.write_wram_eq _ _ _ (by omega)]
  simp only [Option.some_bind]
  rw [CPU.write_wram_eq _ _ _ (by omega)]
  simp only [Option.some_bind]
  rw [CPU.write_wram_eq _ _ _ (by omega)]
  simp only [Option.some_bind]
  rw [CPU.mem_write_u16_high _ _ _ (by omega)]
  rfl

/-- Claim C6 (status: confirmed).  For every CPU state (with the 8-bit
stack-offset invariant): `php` writes the flag byte with BREAK and BREAK2
forced to 1 at the stack address; `plp` and `rti` set the flag register to
the popped byte with BREAK forced to 0 and BREAK2 forced to 1, whatever the
popped pattern; and in particular pushing flags and popping them back yields
the original flags with BREAK = 0 and BREAK2 = 1. -/
theorem c6_flag_push_pop_normalization (c : CPU) (hs : c.stackptr.addr < 256) :
    (∃ c1, c.php = some c1 ∧
      c1.bus.cpu_wram (0x100 + c.stackptr.addr) = c.status ||| 0x10 ||| 0x20 ∧
      ∃ c2, c1.plp = some c2 ∧
        c2.status = (c.status &&& 0xEF) ||| 0x20 ∧
        c2.status &&& 0x10 = 0 ∧ c2.status &&& 0x20 = 0x20) ∧
    (∃ c3, c.plp = some c3 ∧
      c3.status =
        (c.bus.cpu_wram (0x100 + (c.stackptr.addr + 1) % 256) &&& 0xEF) ||| 0x20 ∧
      c3.status &&& 0x10 = 0 ∧ c3.status &&& 0x20 = 0x20) ∧
    (∃ c4, c.rti = some c4 ∧
      c4.status =
        (c.bus.cpu_wram (0x100 + (c.stackptr.addr + 1) % 256) &&& 0xEF) ||| 0x20 ∧
      c4.status &&& 0x10 = 0 ∧ c4.status &&& 0x20 = 0x20) := by
  refine ⟨⟨_, CPU.php_eq c hs, ?_, ?_⟩,
    ⟨_, CPU.plp_eq c hs, rfl, pop_status_break_clear _, pop_status_break2_set _⟩,
    ⟨_, CPU.rti_eq c hs, rfl, pop_status_break_clear _, pop_status_break2_set _⟩⟩
  · dsimp only
    simp [upd]
  · refine ⟨_, CPU.plp_eq _ ?_, ?_, pop_status_break_clear _, pop_status_break2_set _⟩
    · dsimp only
      exact Nat.mod_lt _ (by norm_num)
    · dsimp only
      rw [show ((c.stackptr.addr + 255) % 256 + 1) % 256 = c.stackptr.addr from
        by omega]
      rw [show upd c.bus.cpu_wram (0x100 + c.stackptr.addr)
          (c.status ||| 0x10 ||| 0x20) (0x100 + c.stackptr.addr) =
          c.status ||| 0x10 ||| 0x20 from by simp [upd]]
      exact push_pop_status_norm c.status

/-- Witness for C6 at the concrete CPU `cpu0` (stack offset 0xFD). -/
theorem c6_witness :
    (∃ c1, cpu0.php = some c1 ∧
      c1.bus.cpu_wram (0x100 + cpu0.stackptr.addr) =
        cpu0.status ||| 0x10 ||| 0x20 ∧
      ∃ c2, c1.plp = some c2 ∧
        c2.status = (cpu0.status &&& 0xEF) ||| 0x20 ∧
        c2.status &&& 0x10 = 0 ∧ c2.status &&& 0x20 = 0x20) ∧
    (∃ c3, cpu0.plp = some c3 ∧
      c3.status =
        (cpu0.bus.cpu_wram (0x100 + (cpu0.stackptr.addr + 1) % 256) &&& 0xEF)
          ||| 0x20 ∧
      c3.status &&& 0x10 = 0 ∧ c3.status &&& 0x20 = 0x20) ∧
    (∃ c4, cpu0.rti = some c4 ∧
      c4.status =
        (cpu0.bus.cpu_wram (0x100 + (cpu0.stackptr.addr + 1) % 256) &&& 0xEF)
          ||| 0x20 ∧
      c4.status &&& 0x10 = 0 ∧ c4.status &&& 0x20 = 0x20) :=
  c6_flag_push_pop_normalization cpu0 (by norm_num [cpu0, StackPtr.new, STACK_RESET])

/-- Counterexample for claim C2: the claim says a write to an address outside
every mapped region is discarded without terminating execution; at the
concrete unmapped address 0x4020 the write reaches the wildcard `panic!` arm
and terminates. -/
theorem c2_counterexample : bus0.mem_write 0x4020 0 = none :=
  Bus.mem_write_high bus0 0x4020 0 (by omega)

/-- Claim C2 as amended (status: corrected).  For every address outside the
work-RAM, peripheral-register and cartridge ranges (0x4000–0x7FFF): a read
returns the last observed open-bus byte without terminating execution —
except the joypad pair 0x4016/0x4017, which hits an unimplemented branch —
while a write is not discarded but terminates execution. -/
theorem c2_amended_unmapped_access (b : Bus) (addr value : Nat)
    (h1 : 0x4000 ≤ addr) (h2 : addr < 0x8000) :
    b.mem_write addr value = none ∧
    (addr ≠ 0x4016 → addr ≠ 0x4017 → b.mem_read addr = some (b.open_bus, b)) :=
  ⟨Bus.mem_write_high b addr value h1,
   fun h3 h4 => Bus.mem_read_open b addr h1 h2 h3 h4⟩

/-- Witness for the amended C2 at the concrete bus `bus0` and address
0x4020. -/
theorem c2_witness :
    bus0.mem_write 0x4020 0 = none ∧
    bus0.mem_read 0x4020 = some (bus0.open_bus, bus0) := by
  have h := c2_amended_unmapped_access bus0 0x4020 0 (by omega) (by omega)
  exact ⟨h.1, h.2 (by omega) (by omega)⟩

/-- Claim C5 (status: confirmed).  For every address in the cartridge range
and every value, the bus write terminates the session (it is the dedicated
`panic!` arm for the read-only program storage, never a silent no-op), and
the bus read succeeds with the stored byte, the offset wrapping modulo the
image length (stated for the two image sizes the loader produces; for a
32 KiB image the wrap is the identity). -/
theorem c5_rom_write_fatal_read_ok (b : Bus) (addr value : Nat)
    (h1 : 0x8000 ≤ addr) (h2 : addr ≤ 0xFFFF)
    (h3 : b.prg_len = 0x4000 ∨ b.prg_len = 0x8000) :
    b.mem_write addr value = none ∧
    b.mem_read addr = some (b.prg_rom ((addr - 0x8000) % b.prg_len),
      { b with open_bus := b.prg_rom ((addr - 0x8000) % b.prg_len) }) :=
  ⟨Bus.mem_write_high b addr value (by omega), Bus.mem_read_rom b addr h1 h2 h3⟩

/-- Witness for C5 at the concrete bus `bus0` (16 KiB image holding 7
everywhere) and address 0xC123. -/
theorem c5_witness :
    bus0.mem_write 0xC123 0x55 = none ∧
    bus0.mem_read 0xC123 = some (7, { bus0 with open_bus := 7 }) := by
  have h := c5_rom_write_fatal_read_ok bus0 0xC123 0x55 (by omega) (by omega)
    (Or.inl rfl)
  exact ⟨h.1, h.2⟩

/-- Claim C7 (status: confirmed).  For the indirect jump, when the pointer
operand address A has low byte 0xFF the target's low byte is fetched from A
and its high byte from `A &&& 0xFF00` — the start of the same page — while
for any other operand address the pointer is a normal little-endian 16-bit
read from A and A + 1.  Stated for pointers held in work RAM (reads are the
WRAM dispatch arm, so each fetched byte is the WRAM cell at the masked
address). -/
theorem c7_jmp_indirect_page_bug (c : CPU) (hpc : c.pc + 1 ≤ 0x1FFF)
    (hA : c.bus.cpu_wram (c.pc &&& 0x7FF) +
      (c.bus.cpu_wram ((c.pc + 1) &&& 0x7FF) <<< 8) < 0x1FFF) :
    ∃ c', c.jmp AddressingMode.NoneAddressing = some c' ∧
      c'.pc =
        if (c.bus.cpu_wram (c.pc &&& 0x7FF) +
            (c.bus.cpu_wram ((c.pc + 1) &&& 0x7FF) <<< 8)) &&& 0xFF = 0xFF then
          (c.bus.cpu_wram (((c.bus.cpu_wram (c.pc &&& 0x7FF) +
              (c.bus.cpu_wram ((c.pc + 1) &&& 0x7FF) <<< 8)) &&& 0xFF00) &&& 0x7FF)
            <<< 8) |||
          c.bus.cpu_wram ((c.bus.cpu_wram (c.pc &&& 0x7FF) +
              (c.bus.cpu_wram ((c.pc + 1) &&& 0x7FF) <<< 8)) &&& 0x7FF)
        else
          c.bus.cpu_wram ((c.bus.cpu_wram (c.pc &&& 0x7FF) +
              (c.bus.cpu_wram ((c.pc + 1) &&& 0x7FF) <<< 8)) &&& 0x7FF) +
          (c.bus.cpu_wram (((c.bus.cpu_wram (c.pc &&& 0x7FF) +
              (c.bus.cpu_wram ((c.pc + 1) &&& 0x7FF) <<< 8)) + 1) &&& 0x7FF)
            <<< 8) := by
  unfold CPU.jmp
  rw [CPU.mem_read_u16_wram c c.pc hpc]
  simp only [Option.bind_eq_bind, Option.some_bind]
  by_cases hff : (c.bus.cpu_wram (c.pc &&& 0x7FF) +
      (c.bus.cpu_wram ((c.pc + 1) &&& 0x7FF) <<< 8)) &&& 0xFF = 0xFF
  · rw [if_pos hff, if_pos hff]
    rw [CPU.read_wram_eq _ _ (by omega)]
    simp only [Option.bind_eq_bind, Option.some_bind]
    rw [CPU.read_wram_eq _ _
      (le_trans (Nat.le_of_lt_succ (Nat.lt_succ_of_le Nat.and_le_left)) (by omega))]
    simp only [Option.bind_eq_bind, Option.some_bind]
    exact ⟨_, rfl, rfl⟩
  · rw [if_neg hff, if_neg hff]
    rw [CPU.mem_read_u16_wram _ _ (by omega)]
    simp only [Option.bind_eq_bind, Option.some_bind]
    exact ⟨_, rfl, rfl⟩

/-- A concrete CPU for the C7 witness: program counter 0, a pointer 0x10FF
stored at addresses 0–1, target low byte 0x34 at WRAM cell 0x2FF
(= 0x10FF & 0x7FF) and target high byte 0x12 at cell 0x200 (= 0x1000 &
0x7FF). -/
def cpu7 : CPU := { cpu0 with
  bus := { bus0 with cpu_wram := fun i =>
    if i = 0 then 0xFF else if i = 1 then 0x10 else
    if i = 0x2FF then 0x34 else if i = 0x200 then 0x12 else 0 } }

/-- Witness for C7 at `cpu7`: the pointer 0x10FF exercises the page-boundary
branch. -/
theorem c7_witness :
    ∃ c', cpu7.jmp AddressingMode.NoneAddressing = some c' ∧
      c'.pc =
        if (cpu7.bus.cpu_wram (cpu7.pc &&& 0x7FF) +
            (cpu7.bus.cpu_wram ((cpu7.pc + 1) &&& 0x7FF) <<< 8)) &&& 0xFF
            = 0xFF then
          (cpu7.bus.cpu_wram (((cpu7.bus.cpu_wram (cpu7.pc &&& 0x7FF) +
              (cpu7.bus.cpu_wram ((cpu7.pc + 1) &&& 0x7FF) <<< 8)) &&& 0xFF00)
              &&& 0x7FF) <<< 8) |||
          cpu7.bus.cpu_wram ((cpu7.bus.cpu_wram (cpu7.pc &&& 0x7FF) +
              (cpu7.bus.cpu_wram ((cpu7.pc + 1) &&& 0x7FF) <<< 8)) &&& 0x7FF)
        else
          cpu7.bus.cpu_wram ((cpu7.bus.cpu_wram (cpu7.pc &&& 0x7FF) +
              (cpu7.bus.cpu_wram ((cpu7.pc + 1) &&& 0x7FF) <<< 8)) &&& 0x7FF) +
          (cpu7.bus.cpu_wram (((cpu7.bus.cpu_wram (cpu7.pc &&& 0x7FF) +
              (cpu7.bus.cpu_wram ((cpu7.pc + 1) &&& 0x7FF) <<< 8)) + 1) &&& 0x7FF)
            <<< 8) :=
  c7_jmp_indirect_page_bug cpu7 (by decide) (by decide)

/-- Claim C8 (status: confirmed).  Writing v to a work-RAM address and
reading back from the address itself or from the address XOR any multiple of
the 2,048-byte stride that stays inside 0x0000–0x1FFF returns v: both
dispatch arms mask the address with 0x7FF before touching the 2,048-byte
store. -/
theorem c8_wram_mirror_roundtrip (b : Bus) (addr v k : Nat)
    (h1 : addr ≤ 0x1FFF) (hk : k < 4) :
    ∃ b', b.mem_write addr v = some b' ∧
      b'.mem_read addr = some (v, { b' with open_bus := v }) ∧
      b'.mem_read (addr ^^^ k * 0x800) = some (v, { b' with open_bus := v }) := by
  refine ⟨_, Bus.mem_write_wram b addr v h1, ?_, ?_⟩
  · rw [Bus.mem_read_wram _ addr h1]
    simp [upd]
  · have hlt : addr ^^^ k * 0x800 < 0x2000 := xor_stride_lt addr k (by omega) hk
    rw [Bus.mem_read_wram _ _ (by omega), xor_stride_and_mask]
    simp [upd]

/-- Witness for C8 at the concrete bus `bus0`, address 0x0123, value 0xAB
and stride multiple 2·0x800. -/
theorem c8_witness :
    ∃ b', bus0.mem_write 0x0123 0xAB = some b' ∧
      b'.mem_read 0x0123 = some (0xAB, { b' with open_bus := 0xAB }) ∧
      b'.mem_read (0x0123 ^^^ 2 * 0x800) =
        some (0xAB, { b' with open_bus := 0xAB }) :=
  c8_wram_mirror_roundtrip bus0 0x0123 0xAB 2 (by omega) (by omega)

set_option maxRecDepth 8000
set_option maxHeartbeats 1600000

/-- Claim C10 (status: confirmed).  The run loop detects redirection by
comparing the program counter with its post-fetch value.  A control-flow
instruction whose target is the address of its own first operand byte —
here a taken BEQ with displacement 0xFF (target
`(pc_after_fetch + 1) - 1 = pc_after_fetch`), and an absolute JMP whose
operand equals the operand's own address — is indistinguishable from "not
redirected", so the loop additionally adds `byte-length − 1`, ending the
iteration at `target + 1` (branch, length 2) respectively `target + 2`
(jump, length 3), past the intended target instead of at it. -/
theorem c10_self_target_redirect_off_by_one (c : CPU) :
    ((c.pc + 1 ≤ 0x1FFF) →
      c.bus.cpu_wram (c.pc &&& 0x7FF) = 0xF0 →
      c.bus.cpu_wram ((c.pc + 1) &&& 0x7FF) = 0xFF →
      flag_contains c.status CpuFlag.ZERO = true →
      ∃ c', c.runStep = some (StepResult.next c') ∧ c'.pc = c.pc + 2) ∧
    ((c.pc + 2 ≤ 0x1FFF) →
      c.bus.cpu_wram (c.pc &&& 0x7FF) = 0x4C →
      c.bus.cpu_wram ((c.pc + 1) &&& 0x7FF) +
        (c.bus.cpu_wram ((c.pc + 1 + 1) &&& 0x7FF) <<< 8) = c.pc + 1 →
      ∃ c', c.runStep = some (StepResult.next c') ∧ c'.pc = c.pc + 3) := by
  constructor
  · intro hpc hop hdisp hz
    unfold CPU.runStep
    rw [CPU.read_wram_eq c c.pc (by omega), hop]
    rw [Option.bind_eq_bind, Option.some_bind]
    dsimp only
    rw [Nat.mod_eq_of_lt (show c.pc + 1 < 65536 by omega)]
    rw [show OPCODES_MAP 0xF0 = some ⟨2, AddressingMode.NoneAddressing⟩ from rfl]
    rw [Option.bind_eq_bind, Option.some_bind]
    dsimp only
    iterate 40 rw [if_neg (by decide)]
    rw [if_pos rfl]
    unfold CPU.beq
    dsimp only
    rw [if_pos hz]
    unfold CPU.branch
    dsimp only
    rw [CPU.read_wram_eq _ (c.pc + 1) (by omega)]
    simp only [Option.bind_eq_bind, Option.some_bind]
    rw [hdisp]
    rw [show sign_extend8 0xFF = 65535 from rfl]
    rw [show (c.pc + 1 + 1 + 65535) % 65536 = c.pc + 1 from by omega]
    rw [if_pos rfl]
    rw [show (c.pc + 1 + (2 - 1)) % 65536 = c.pc + 2 from by omega]
    exact ⟨_, rfl, rfl⟩
  · intro hpc hop hA
    unfold CPU.runStep
    rw [CPU.read_wram_eq c c.pc (by omega), hop]
    rw [Option.bind_eq_bind, Option.some_bind]
    dsimp only
    rw [Nat.mod_eq_of_lt (show c.pc + 1 < 65536 by omega)]
    rw [show OPCODES_MAP 0x4C = some ⟨3, AddressingMode.Absolute⟩ from rfl]
    rw [Option.bind_eq_bind, Option.some_bind]
    dsimp only
    iterate 50 rw [if_neg (by decide)]
    rw [if_pos (Or.inl rfl)]
    unfold CPU.jmp
    dsimp only
    rw [CPU.mem_read_u16_wram _ (c.pc + 1) (by omega)]
    simp only [Option.bind_eq_bind, Option.some_bind]
    rw [hA]
    rw [if_pos rfl]
    rw [show (c.pc + 1 + (3 - 1)) % 65536 = c.pc + 3 from by omega]
    exact ⟨_, rfl, rfl⟩

/-- A concrete CPU for the C10 witness: BEQ (0xF0) with displacement 0xFF at
address 0, zero flag set, so the taken branch targets its own displacement
byte at address 1. -/
def cpu10 : CPU := { cpu0 with
  status := 0x26
  bus := { bus0 with cpu_wram := fun i =>
    if i = 0 then 0xF0 else if i = 1 then 0xFF else 0 } }

/-- A concrete CPU for the C10 jump case: `JMP 0x0001` stored at address 0,
so the jump target is the address of its own first operand byte. -/
def cpu10b : CPU := { cpu0 with
  bus := { bus0 with cpu_wram := fun i =>
    if i = 0 then 0x4C else if i = 1 then 0x01 else 0 } }

/-- Witness for C10 at `cpu10` and `cpu10b`: the branch iteration ends at
pc = 2 (one past its target 1) and the jump iteration at pc = 3 (two past
its target 1). -/
theorem c10_witness :
    (∃ c', cpu10.runStep = some (StepResult.next c') ∧ c'.pc = cpu10.pc + 2) ∧
    (∃ c', cpu10b.runStep = some (StepResult.next c') ∧ c'.pc = cpu10b.pc + 3) :=
  ⟨(c10_self_target_redirect_off_by_one cpu10).1 (by decide) (by decide)
      (by decide) (by decide),
   (c10_self_target_redirect_off_by_one cpu10b).2 (by decide) (by decide)
      (by decide)⟩

end NESm
